import Mathlib

/-!
Shallow embedding of the mcpFirebird Python example clients:
`test-mcp-client.py` (class `MCPClient`), `test-sse.py` (`read_sse` /
`send_request`), and `examples/legacy/sse_client.py`
(class `McpFirebirdSseClient`).

Python string primitives used by the scripts (`startswith`, slicing,
`strip`, `split`, `in`) are modelled by executable functions on the
character list underlying a Lean `String`, so that every definition
evaluates by `decide` on concrete inputs.
-/

/-! ### Python string primitives -/

/-- Remainder of the second list after removing the first list as a leading
run, when it is one (`none` otherwise). -/
def stripLead : List Char → List Char → Option (List Char)
  | [], l => some l
  | _ :: _, [] => none
  | s :: ss, c :: cs => if c = s then stripLead ss cs else none

/-- Python `s.startswith(pat)`. -/
def pyStartsWith (s pat : String) : Bool := (stripLead pat.data s.data).isSome

/-- Python slicing `s[n:]` (by code points). -/
def pyDrop (s : String) (n : Nat) : String := ⟨s.data.drop n⟩

/-- Whitespace characters removed by Python `str.strip()` (the ones that
can occur in this protocol's lines). -/
def wsChar (c : Char) : Bool := c = ' ' || c = '\t' || c = '\n' || c = '\r'

/-- Python `s.strip()`. -/
def pyStrip (s : String) : String :=
  ⟨((s.data.dropWhile wsChar).reverse.dropWhile wsChar).reverse⟩

/-- Fuel-indexed worker for `pySplit`; fuel bounds the number of characters
still to be scanned, so structural recursion suffices. -/
def splitGo (sep : List Char) : Nat → List Char → List Char → List (List Char)
  | 0, l, acc => [acc.reverse ++ l]
  | fuel + 1, l, acc =>
    match l with
    | [] => [acc.reverse]
    | c :: cs =>
      match stripLead sep l with
      | some rest => acc.reverse :: splitGo sep fuel rest []
      | none => splitGo sep fuel cs (c :: acc)

/-- Python `s.split(sep)` for a non-empty separator. -/
def pySplit (s sep : String) : List String :=
  (splitGo sep.data s.data.length s.data []).map String.mk

/-- Python `s.split(sep)[1]` (the script indexes blindly; `""` stands for
the out-of-range case, which the script never reaches). -/
def pySplitGet1 (s sep : String) : String := (pySplit s sep).getD 1 ""

/-- Python `sep in s` (substring containment, for non-empty `sep`). -/
def pyContains (s sep : String) : Bool := (pySplit s sep).length > 1

/-- Python truthiness of an optional string: `None` and `""` are falsy. -/
def pyTruthyOpt : Option String → Bool
  | none => false
  | some s => s ≠ ""

/-! ### JSON-RPC request objects and the HTTP POST boundary

`requests.post` and `json.loads` are external collaborators; a call's
observable interaction with them is modelled by an explicit outcome value
and a trace of the POSTs performed. -/

/-- The JSON-RPC request dict built by all three scripts.  `params` is the
opaque serialized payload. -/
structure RpcRequest where
  jsonrpc : String
  id : String
  method : String
  params : String

/-- An HTTP response as observed by the scripts: status code, raw text,
and the result of `response.json()` (`none` models `JSONDecodeError`). -/
structure HttpResponse (J : Type) where
  status : Nat
  text : String
  jsonBody : Option J

/-- Outcome of one `requests.post` call: a response, or a raised exception
(connection error / timeout). -/
inductive PostOutcome (J : Type) where
  | ok (r : HttpResponse J)
  | exn (msg : String)

/-! ### `test-mcp-client.py` — class `MCPClient` and `process_sse` -/

/-- Combined state of an `MCPClient` object together with the local
variables of its `process_sse` loop (`current_event`, `event_data`) and
the `endpoint_received` threading event. -/
structure MCPState where
  server_url : String
  session_id : Option String
  message_endpoint : Option String
  connected : Bool
  current_event : Option String
  event_data : String
  endpoint_received : Bool

/-- `MCPClient.__init__(server_url)` followed by entering `process_sse`
with fresh loop locals. -/
def MCPClient_mk (server_url : String) : MCPState :=
  { server_url := server_url
    session_id := none
    message_endpoint := none
    connected := false
    current_event := none
    event_data := ""
    endpoint_received := false }

/-- One iteration of the `for line in ...iter_lines()` loop of
`MCPClient.connect.process_sse` (state changes only; the prints are
modelled separately by `process_sse_line_out`). -/
def process_sse_line (s : MCPState) (line : String) : MCPState :=
  if line = "" then s
  else if pyStartsWith line "event:" then
    { s with current_event := some (pyStrip (pyDrop line 6)) }
  else if pyStartsWith line "data:" then
    let d := pyStrip (pyDrop line 5)
    if s.current_event = some "endpoint" then
      if pyContains d "?sessionId=" then
        { s with event_data := d
                 message_endpoint := some d
                 session_id := some (pySplitGet1 d "?sessionId=")
                 connected := true
                 endpoint_received := true
                 current_event := none }
      else
        { s with event_data := d, message_endpoint := some d, current_event := none }
    else
      match s.current_event with
      | some e =>
        if e = "" then { s with event_data := d }
        else { s with event_data := d, current_event := none }
      | none => { s with event_data := d }
  else s

/-- The whole `process_sse` loop over a finite line source. -/
def process_sse (s : MCPState) (lines : List String) : MCPState :=
  lines.foldl process_sse_line s

/-- A frame delivery performed by `process_sse`: intake of an `endpoint`
frame by the session logic, or a payload handed to the printing consumer,
JSON-decoded when `json.loads` succeeds. -/
inductive Emission (J : Type) where
  | endpointIntake (d : String)
  | eventJson (e : String) (v : J)
  | eventRaw (e : String) (d : String)
  | plainJson (v : J)
  | plainRaw (d : String)

/-- One `process_sse` loop iteration, also recording the frame deliveries
it performs.  `parse` models `json.loads` (`none` = raises). -/
def process_sse_line_out {J : Type} (parse : String → Option J)
    (s : MCPState) (line : String) : MCPState × List (Emission J) :=
  if line = "" then (s, [])
  else if pyStartsWith line "event:" then
    ({ s with current_event := some (pyStrip (pyDrop line 6)) }, [])
  else if pyStartsWith line "data:" then
    let d := pyStrip (pyDrop line 5)
    if s.current_event = some "endpoint" then
      (if pyContains d "?sessionId=" then
        { s with event_data := d
                 message_endpoint := some d
                 session_id := some (pySplitGet1 d "?sessionId=")
                 connected := true
                 endpoint_received := true
                 current_event := none }
      else
        { s with event_data := d, message_endpoint := some d, current_event := none },
       [Emission.endpointIntake d])
    else
      match s.current_event with
      | some e =>
        if e = "" then
          ({ s with event_data := d },
           match parse d with
           | some v => [Emission.plainJson v]
           | none => if d = "" then [] else [Emission.plainRaw d])
        else
          ({ s with event_data := d, current_event := none },
           match parse d with
           | some v => [Emission.eventJson e v]
           | none => [Emission.eventRaw e d])
      | none =>
        ({ s with event_data := d },
         match parse d with
         | some v => [Emission.plainJson v]
         | none => if d = "" then [] else [Emission.plainRaw d])
  else (s, [])

/-- `process_sse` with its frame-delivery trace. -/
def process_sse_out {J : Type} (parse : String → Option J)
    (s : MCPState) : List String → MCPState × List (Emission J)
  | [] => (s, [])
  | l :: ls =>
    let (s1, es) := process_sse_line_out parse s l
    let (s2, es') := process_sse_out parse s1 ls
    (s2, es ++ es')

/-- `endpoint_received.wait(...)`: returns immediately with `True` once the
event has been set. -/
def endpoint_received_wait (s : MCPState) : Bool := s.endpoint_received

/-- `MCPClient.close()` (state effect on the fields `send_request` reads). -/
def MCPClient_close (s : MCPState) : MCPState := { s with connected := false }

/-- `MCPClient.send_request(method, params)`.  `now` is `int(time.time())`;
`post` is the outcome `requests.post` would produce.  Returns the value
returned to the caller and the trace of POSTs performed (URL and body). -/
def MCPClient_send_request {J : Type} (s : MCPState) (method params : String)
    (now : Nat) (post : PostOutcome J) : Option J × List (String × RpcRequest) :=
  if !s.connected || !pyTruthyOpt s.message_endpoint || !pyTruthyOpt s.session_id then
    (none, [])
  else
    let req : RpcRequest :=
      { jsonrpc := "2.0", id := Nat.repr now, method := method, params := params }
    let url := s.server_url ++ s.message_endpoint.getD ""
    let url := if pyStartsWith url "http" then url
               else s.server_url ++ s.message_endpoint.getD ""
    match post with
    | PostOutcome.exn _ => (none, [(url, req)])
    | PostOutcome.ok r =>
      if r.status ≠ 200 then (none, [(url, req)])
      else
        match r.jsonBody with
        | some j => (some j, [(url, req)])
        | none => (none, [(url, req)])

/-! ### `test-sse.py` — `read_sse` and `send_request` -/

/-- The module constant `SERVER_URL` of `test-sse.py`. -/
def TSSE_SERVER_URL : String := "http://localhost:3003"

/-- State of the `read_sse` loop of `test-sse.py`: the loop locals, the
module-level `SESSION_ID`, and the `endpoint_event_received` event. -/
structure SSEState where
  current_event : Option String
  event_data : String
  SESSION_ID : Option String
  endpoint_event_received : Bool

/-- The initial `read_sse` state (`SESSION_ID = None` at module level). -/
def read_sse_init : SSEState :=
  { current_event := none
    event_data := ""
    SESSION_ID := none
    endpoint_event_received := false }

/-- One iteration of the `for line in sse_response.iter_lines()` loop of
`main.read_sse` in `test-sse.py`. -/
def read_sse_line (s : SSEState) (line : String) : SSEState :=
  if line = "" then s
  else if pyStartsWith line "event:" then
    { s with current_event := some (pyStrip (pyDrop line 6)) }
  else if pyStartsWith line "data:" then
    let d := pyStrip (pyDrop line 5)
    if s.current_event = some "endpoint" then
      if pyContains d "?sessionId=" then
        { s with event_data := d
                 SESSION_ID := some (pySplitGet1 d "?sessionId=")
                 endpoint_event_received := true
                 current_event := none }
      else { s with event_data := d, current_event := none }
    else { s with event_data := d }
  else s

/-- The whole `read_sse` loop over a finite line source. -/
def read_sse (s : SSEState) (lines : List String) : SSEState :=
  lines.foldl read_sse_line s

/-- `send_request(method, params, session_id)` of `test-sse.py`.  `now` is
`int(time.time())`; `post` is the outcome of `requests.post`. -/
def tsse_send_request {J : Type} (session_id : Option String)
    (method params : String) (now : Nat) (post : PostOutcome J) :
    Option J × List (String × RpcRequest) :=
  match session_id with
  | none => (none, [])
  | some sid =>
    let req : RpcRequest :=
      { jsonrpc := "2.0", id := Nat.repr now, method := method, params := params }
    let url := TSSE_SERVER_URL ++ "/message?sessionId=" ++ sid
    match post with
    | PostOutcome.exn _ => (none, [(url, req)])
    | PostOutcome.ok r =>
      if r.status ≠ 200 then (none, [(url, req)])
      else
        match r.jsonBody with
        | some j => (some j, [(url, req)])
        | none => (none, [(url, req)])

/-! ### `examples/legacy/sse_client.py` — class `McpFirebirdSseClient` -/

/-- `string.ascii_lowercase`. -/
def ascii_lowercase : String := "abcdefghijklmnopqrstuvwxyz"

/-- `string.digits`. -/
def string_digits : String := "0123456789"

/-- Client state of `McpFirebirdSseClient` (the fields its methods read
and write). -/
structure McpFirebirdSseClient where
  server_url : String
  session_id : String
  request_id : Nat
  connected : Bool

/-- `McpFirebirdSseClient.__init__(server_url)`: `randChars` is the list
of ten characters drawn by `random.choices(ascii_lowercase + digits, k=10)`. -/
def McpFirebirdSseClient_mk (server_url : String) (randChars : List Char) :
    McpFirebirdSseClient :=
  { server_url := server_url
    session_id := "python-client-" ++ String.mk randChars
    request_id := 1
    connected := false }

/-- `connect()` (client-state effect of the success path). -/
def legacy_connect (c : McpFirebirdSseClient) : McpFirebirdSseClient :=
  { c with connected := true }

/-- `disconnect()` (client-state effect when a stream is open). -/
def legacy_disconnect (c : McpFirebirdSseClient) : McpFirebirdSseClient :=
  { c with connected := false }

/-- Client-state effect of `_process_events`: the event loop itself writes
no client field; only the surrounding `except` handler sets
`connected = False` when the stream errors. -/
def legacy_process_events_client (c : McpFirebirdSseClient)
    (streamError : Bool) : McpFirebirdSseClient :=
  if streamError then { c with connected := false } else c

/-- Argument handed to a `'message'` handler by `_trigger_event`: the
frame data JSON-decoded when `json.loads(event.data)` succeeds, else the
raw string. -/
inductive HandlerArg (J : Type) where
  | json (v : J)
  | raw (s : String)

/-- The per-event body of `_process_events`: try `json.loads`, fall back
to the raw data. -/
def legacy_process_event {J : Type} (parse : String → Option J)
    (d : String) : HandlerArg J :=
  match parse d with
  | some v => HandlerArg.json v
  | none => HandlerArg.raw d

/-- The `for event in self.sse_client.events()` loop of `_process_events`,
as the sequence of `'message'` deliveries it performs. -/
def legacy_process_events {J : Type} (parse : String → Option J) :
    List String → List (HandlerArg J)
  | [] => []
  | d :: rest => legacy_process_event parse d :: legacy_process_events parse rest

/-- `_trigger_event`: every registered callback receives the argument, in
registration order. -/
def trigger_event {J α : Type} (handlers : List (HandlerArg J → α))
    (arg : HandlerArg J) : List α :=
  handlers.map (fun h => h arg)

/-- `execute_method(method, params)`: result aside, the client's counter
advances and exactly one POST is performed once past the connectivity
guard.  Returns (caller outcome, updated client, POST trace). -/
def execute_method {J : Type} (c : McpFirebirdSseClient)
    (method params : String) (post : PostOutcome J) :
    Except String J × McpFirebirdSseClient × List (String × RpcRequest) :=
  if !c.connected then
    (Except.error "No hay conexión SSE activa", c, [])
  else
    let req : RpcRequest :=
      { jsonrpc := "2.0", id := Nat.repr c.request_id, method := method, params := params }
    let c' := { c with request_id := c.request_id + 1 }
    let url := c.server_url ++ "/message?sessionId=" ++ c.session_id
    match post with
    | PostOutcome.exn m => (Except.error m, c', [(url, req)])
    | PostOutcome.ok r =>
      match r.jsonBody with
      | some j => (Except.ok j, c', [(url, req)])
      | none => (Except.error r.text, c', [(url, req)])

/-- A sequence of `execute_method` invocations threaded through the
client; collects every request that reached the wire. -/
def run_calls {J : Type} (c : McpFirebirdSseClient) :
    List (String × String × PostOutcome J) → List RpcRequest × McpFirebirdSseClient
  | [] => ([], c)
  | (m, p, post) :: rest =>
    let r := execute_method c m p post
    let tail := run_calls r.2.1 rest
    (r.2.2.map Prod.snd ++ tail.1, tail.2)

/-! ### Decimal rendering

All three scripts render request ids with `str(...)` on an integer,
modelled by `Nat.repr`.  The decoding function below gives a left inverse
of `Nat.repr`, hence its injectivity: distinct counters yield distinct
string ids. -/

/-- Value of a decimal digit character (as produced by `Nat.digitChar` on
inputs below 10). -/
def digitVal (c : Char) : Nat :=
  if c = '0' then 0 else if c = '1' then 1 else if c = '2' then 2 else
  if c = '3' then 3 else if c = '4' then 4 else if c = '5' then 5 else
  if c = '6' then 6 else if c = '7' then 7 else if c = '8' then 8 else
  if c = '9' then 9 else 0

/-- Horner evaluation of a digit string, most significant first. -/
def decValAux (acc : Nat) : List Char → Nat
  | [] => acc
  | c :: cs => decValAux (10 * acc + digitVal c) cs

/-- Numeric value of a decimal string. -/
def decRepr (s : String) : Nat := decValAux 0 s.data

lemma decValAux_shift (cs : List Char) : ∀ acc : Nat,
    decValAux acc cs = acc * 10 ^ cs.length + decValAux 0 cs := by
  induction cs with
  | nil => intro acc; simp [decValAux]
  | cons c cs ih =>
    intro acc
    simp only [decValAux, List.length_cons]
    rw [ih (10 * acc + digitVal c), ih (10 * 0 + digitVal c)]
    ring

lemma digitVal_digitChar {d : Nat} (h : d < 10) :
    digitVal (Nat.digitChar d) = d := by
  interval_cases d <;> decide

lemma decValAux_toDigitsCore :
    ∀ (fuel n : Nat) (ds : List Char), n < fuel →
      decValAux 0 (Nat.toDigitsCore 10 fuel n ds) =
        n * 10 ^ ds.length + decValAux 0 ds := by
  intro fuel
  induction fuel with
  | zero => intro n ds h; exact absurd h (Nat.not_lt_zero n)
  | succ f ih =>
    intro n ds h
    simp only [Nat.toDigitsCore]
    by_cases hd : n / 10 = 0
    · have hn : n % 10 = n := by omega
      simp only [hd, if_true, decValAux]
      rw [decValAux_shift, digitVal_digitChar (Nat.mod_lt n (by omega)), hn]
      ring
    · have hf : n / 10 < f := by omega
      simp only [hd, if_false]
      rw [ih (n / 10) (Nat.digitChar (n % 10) :: ds) hf]
      simp only [decValAux, List.length_cons]
      rw [decValAux_shift, digitVal_digitChar (Nat.mod_lt n (by omega))]
      have hnm : 10 * (n / 10) + n % 10 = n := Nat.div_add_mod n 10
      conv_rhs => rw [← hnm]
      ring

theorem decRepr_repr (n : Nat) : decRepr (Nat.repr n) = n := by
  have h1 : decRepr (Nat.repr n) = decValAux 0 (Nat.toDigitsCore 10 (n + 1) n []) := rfl
  rw [h1, decValAux_toDigitsCore (n + 1) n [] (Nat.lt_succ_self n)]
  simp [decValAux]

theorem Nat_repr_injective : Function.Injective Nat.repr := by
  intro a b h
  rw [← decRepr_repr a, ← decRepr_repr b, h]

/-! ### Basic state lemmas for the `process_sse` loop -/

lemma process_sse_line_connected_mono (s : MCPState) (l : String)
    (h : s.connected = true) : (process_sse_line s l).connected = true := by
  unfold process_sse_line
  repeat' split
  all_goals (try (by_cases hc : pyContains (pyStrip (pyDrop l 5)) "?sessionId=" = true))
  all_goals simp_all

lemma process_sse_line_endpoint_received_mono (s : MCPState) (l : String)
    (h : s.endpoint_received = true) :
    (process_sse_line s l).endpoint_received = true := by
  unfold process_sse_line
  repeat' split
  all_goals (try (by_cases hc : pyContains (pyStrip (pyDrop l 5)) "?sessionId=" = true))
  all_goals simp_all

lemma process_sse_connected_mono (ls : List String) : ∀ s : MCPState,
    s.connected = true → (process_sse s ls).connected = true := by
  induction ls with
  | nil => intro s h; exact h
  | cons l ls ih =>
    intro s h
    exact ih (process_sse_line s l) (process_sse_line_connected_mono s l h)

lemma process_sse_endpoint_received_mono (ls : List String) : ∀ s : MCPState,
    s.endpoint_received = true → (process_sse s ls).endpoint_received = true := by
  induction ls with
  | nil => intro s h; exact h
  | cons l ls ih =>
    intro s h
    exact ih (process_sse_line s l) (process_sse_line_endpoint_received_mono s l h)

/-- Readiness invariant of one `process_sse` step: once `connected` holds,
`session_id` and `message_endpoint` are populated. -/
lemma process_sse_line_inv (s : MCPState) (l : String)
    (h : s.connected = true → s.session_id.isSome ∧ s.message_endpoint.isSome)
    (h' : (process_sse_line s l).connected = true) :
    (process_sse_line s l).session_id.isSome ∧
      (process_sse_line s l).message_endpoint.isSome := by
  unfold process_sse_line at h' ⊢
  repeat' split at h'
  all_goals (repeat' split)
  all_goals (try (by_cases hc : pyContains (pyStrip (pyDrop l 5)) "?sessionId=" = true))
  all_goals simp_all

lemma process_sse_inv (ls : List String) : ∀ s : MCPState,
    (s.connected = true → s.session_id.isSome ∧ s.message_endpoint.isSome) →
    (process_sse s ls).connected = true →
    (process_sse s ls).session_id.isSome ∧
      (process_sse s ls).message_endpoint.isSome := by
  induction ls with
  | nil => intro s h h'; exact h h'
  | cons l ls ih =>
    intro s h h'
    exact ih (process_sse_line s l) (process_sse_line_inv s l h) h'

/-! ### Helper lemmas on the string primitives -/

lemma stripLead_append (l : List Char) : ∀ r : List Char, stripLead l (l ++ r) = some r := by
  induction l with
  | nil => intro r; rfl
  | cons c cs ih => intro r; simp [stripLead, ih r]

lemma pyStartsWith_append (p q : String) : pyStartsWith (p ++ q) p = true := by
  unfold pyStartsWith
  rw [String.data_append, stripLead_append]
  rfl

/-! ### Request-id allocation in `execute_method` call sequences -/

/-- A connected `execute_method` call: updated client and wire trace. -/
lemma execute_method_effects {J : Type} (c : McpFirebirdSseClient)
    (m p : String) (post : PostOutcome J) (h : c.connected = true) :
    (execute_method c m p post).2.1 = { c with request_id := c.request_id + 1 }
    ∧ (execute_method c m p post).2.2
        = [(c.server_url ++ "/message?sessionId=" ++ c.session_id,
            { jsonrpc := "2.0", id := Nat.repr c.request_id, method := m, params := p })] := by
  unfold execute_method
  simp only [h, Bool.not_true, Bool.false_eq_true, if_false]
  cases post with
  | exn msg => exact ⟨rfl, rfl⟩
  | ok r => cases hr : r.jsonBody <;> simp [hr]

/-- In a connected client, the ids of the requests put on the wire by a
sequence of `execute_method` calls are the decimal renderings of the
consecutive counter values starting at the client's `request_id`. -/
lemma run_calls_ids {J : Type} :
    ∀ (calls : List (String × String × PostOutcome J)) (c : McpFirebirdSseClient),
      c.connected = true →
      (run_calls c calls).1.map RpcRequest.id
        = (List.range calls.length).map (fun k => Nat.repr (c.request_id + k)) := by
  intro calls
  induction calls with
  | nil => intro c h; rfl
  | cons call rest ih =>
    intro c h
    obtain ⟨m, p, post⟩ := call
    obtain ⟨hc', htr⟩ := execute_method_effects c m p post h
    show ((execute_method c m p post).2.2.map Prod.snd
        ++ (run_calls (execute_method c m p post).2.1 rest).1).map RpcRequest.id = _
    rw [htr, hc', List.map_append]
    have hconn' : ({ c with request_id := c.request_id + 1 } :
        McpFirebirdSseClient).connected = true := h
    rw [ih _ hconn']
    simp only [List.map_cons, List.map_nil, List.length_cons, List.range_succ_eq_map,
      List.map_map]
    rw [List.singleton_append, List.cons_eq_cons]
    refine ⟨congrArg Nat.repr (by omega), List.map_congr_left ?_⟩
    intro k hk
    simp only [Function.comp_apply]
    exact congrArg Nat.repr (by omega)

/-! ### Claims -/

/-- C1, counterexample: after the first `endpoint` frame has resolved the
session (`connected = true`, `session_id = "abc"`), a second `endpoint`
frame with different data overwrites both `session_id` and
`message_endpoint`, so intake past first resolution is not ignored. -/
theorem c1_counterexample :
    (process_sse (MCPClient_mk "http://localhost:3005")
        ["event: endpoint", "data: /a?sessionId=abc"]).connected = true
    ∧ (process_sse (MCPClient_mk "http://localhost:3005")
        ["event: endpoint", "data: /a?sessionId=abc"]).session_id = some "abc"
    ∧ (process_sse (process_sse (MCPClient_mk "http://localhost:3005")
        ["event: endpoint", "data: /a?sessionId=abc"])
        ["event: endpoint", "data: /b?sessionId=xyz"]).session_id = some "xyz"
    ∧ (process_sse (process_sse (MCPClient_mk "http://localhost:3005")
        ["event: endpoint", "data: /a?sessionId=abc"])
        ["event: endpoint", "data: /b?sessionId=xyz"]).message_endpoint
        = some "/b?sessionId=xyz" := by
  decide

/-- C1 (amended): the ready flag is monotone — once `connected` is true it
stays true under intake of any later line — but intake is not idempotent
past first resolution: a later `endpoint` frame overwrites
`message_endpoint` with its data, and overwrites `session_id` as well
whenever that data contains `?sessionId=` (leaving `session_id` unchanged
otherwise). -/
theorem c1_intake_overwrites :
    (∀ (s : MCPState) (l : String), s.connected = true →
        (process_sse_line s l).connected = true)
    ∧ (∀ (s : MCPState) (ld : String), s.connected = true →
        s.current_event = some "endpoint" →
        ld ≠ "" → pyStartsWith ld "event:" = false → pyStartsWith ld "data:" = true →
        (process_sse_line s ld).message_endpoint = some (pyStrip (pyDrop ld 5))
        ∧ (pyContains (pyStrip (pyDrop ld 5)) "?sessionId=" = true →
            (process_sse_line s ld).session_id
              = some (pySplitGet1 (pyStrip (pyDrop ld 5)) "?sessionId="))
        ∧ (pyContains (pyStrip (pyDrop ld 5)) "?sessionId=" = false →
            (process_sse_line s ld).session_id = s.session_id)) := by
  constructor
  · exact fun s l h => process_sse_line_connected_mono s l h
  · intro s ld hconn hce hne hev hda
    by_cases hc : pyContains (pyStrip (pyDrop ld 5)) "?sessionId=" = true <;>
      simp [process_sse_line, hne, hev, hda, hce, hc]

/-- C1, witness for the amended theorem at a concrete post-resolution
state and a concrete second endpoint frame. -/
theorem c1_witness :
    (process_sse_line (process_sse (MCPClient_mk "http://localhost:3005")
        ["event: endpoint", "data: /a?sessionId=abc", "event: endpoint"])
        "data: /b?sessionId=xyz").message_endpoint
      = some (pyStrip (pyDrop "data: /b?sessionId=xyz" 5))
    ∧ (pyContains (pyStrip (pyDrop "data: /b?sessionId=xyz" 5)) "?sessionId=" = true →
        (process_sse_line (process_sse (MCPClient_mk "http://localhost:3005")
            ["event: endpoint", "data: /a?sessionId=abc", "event: endpoint"])
            "data: /b?sessionId=xyz").session_id
          = some (pySplitGet1 (pyStrip (pyDrop "data: /b?sessionId=xyz" 5)) "?sessionId="))
    ∧ (pyContains (pyStrip (pyDrop "data: /b?sessionId=xyz" 5)) "?sessionId=" = false →
        (process_sse_line (process_sse (MCPClient_mk "http://localhost:3005")
            ["event: endpoint", "data: /a?sessionId=abc", "event: endpoint"])
            "data: /b?sessionId=xyz").session_id
          = (process_sse (MCPClient_mk "http://localhost:3005")
              ["event: endpoint", "data: /a?sessionId=abc", "event: endpoint"]).session_id) :=
  c1_intake_overwrites.2
    (process_sse (MCPClient_mk "http://localhost:3005")
      ["event: endpoint", "data: /a?sessionId=abc", "event: endpoint"])
    "data: /b?sessionId=xyz" (by decide) (by decide) (by decide) (by decide) (by decide)

/-- C2, counterexample: a stream with no blank-line terminator at all
(`countP (· = "") = 0`) nevertheless produces one frame delivery, and the
un-terminated endpoint frame is consumed (the session resolves); the same
happens in `read_sse` of `test-sse.py`.  So frames are not emitted per
blank-line terminator, and a frame lacking a terminating blank line at
stream end is still delivered. -/
theorem c2_counterexample :
    (["event: endpoint", "data: /msg?sessionId=abc123"].countP (fun l => l = "")) = 0
    ∧ ((process_sse_out (fun _ => (none : Option Nat)) (MCPClient_mk "http://localhost:3005")
        ["event: endpoint", "data: /msg?sessionId=abc123"]).2).length = 1
    ∧ (process_sse_out (fun _ => (none : Option Nat)) (MCPClient_mk "http://localhost:3005")
        ["event: endpoint", "data: /msg?sessionId=abc123"]).1.connected = true
    ∧ (read_sse read_sse_init ["event: endpoint", "data: /x?sessionId=q"]).SESSION_ID
        = some "q" := by
  decide

/-- C2 (amended): the loop delivers frames at `data:` lines, not at
blank-line terminators: a blank line (or any line not starting with
`data:`) delivers nothing, and a `data:` line whose stripped payload is
non-empty delivers exactly one frame immediately, so no terminating blank
line is needed and nothing is held back at stream end. -/
theorem c2_emission_per_data_line :
    ∀ (J : Type) (parse : String → Option J) (s : MCPState) (l : String),
      (l = "" → (process_sse_line_out parse s l).2 = [])
      ∧ (pyStartsWith l "data:" = false → (process_sse_line_out parse s l).2 = [])
      ∧ (l ≠ "" → pyStartsWith l "event:" = false → pyStartsWith l "data:" = true →
          pyStrip (pyDrop l 5) ≠ "" →
          ((process_sse_line_out parse s l).2).length = 1) := by
  intro J parse s l
  refine ⟨?_, ?_, ?_⟩
  · intro h; simp [process_sse_line_out, h]
  · intro h
    by_cases h0 : l = ""
    · simp [process_sse_line_out, h0]
    · by_cases hev : pyStartsWith l "event:" = true <;>
        simp [process_sse_line_out, h0, hev, h]
  · intro h0 hev hda hd
    by_cases hce : s.current_event = some "endpoint"
    · simp [process_sse_line_out, h0, hev, hda, hce]
    · cases hcur : s.current_event with
      | none =>
        cases hp : parse (pyStrip (pyDrop l 5)) <;>
          simp [process_sse_line_out, h0, hev, hda, hcur, hp, hd]
      | some e =>
        have he : ¬e = "endpoint" := fun h => hce (hcur ▸ h ▸ rfl)
        by_cases hee : e = "" <;>
          cases hp : parse (pyStrip (pyDrop l 5)) <;>
            simp [process_sse_line_out, h0, hev, hda, hcur, he, hee, hp, hd]

/-- C2, witness for the amended theorem: a lone unterminated `data:` line
delivers exactly one frame. -/
theorem c2_witness :
    ((process_sse_line_out (fun _ => (none : Option Nat))
        (MCPClient_mk "http://localhost:3005") "data: hello").2).length = 1 :=
  (c2_emission_per_data_line Nat (fun _ => none) (MCPClient_mk "http://localhost:3005")
    "data: hello").2.2 (by decide) (by decide) (by decide) (by decide)

/-- C3: an `endpoint` frame with data `/msg?sessionId=abc123` makes the
client store `session_id = "abc123"` and the whole data string as the
message endpoint, and the readiness wait succeeds immediately and keeps
succeeding after any further input. -/
theorem c3_endpoint_resolution :
    ∀ rest : List String,
      (process_sse (MCPClient_mk "http://localhost:3005")
          ["event: endpoint", "data: /msg?sessionId=abc123"]).session_id = some "abc123"
      ∧ (process_sse (MCPClient_mk "http://localhost:3005")
          ["event: endpoint", "data: /msg?sessionId=abc123"]).message_endpoint
          = some "/msg?sessionId=abc123"
      ∧ endpoint_received_wait (process_sse (MCPClient_mk "http://localhost:3005")
          ["event: endpoint", "data: /msg?sessionId=abc123"]) = true
      ∧ endpoint_received_wait (process_sse (process_sse (MCPClient_mk "http://localhost:3005")
          ["event: endpoint", "data: /msg?sessionId=abc123"]) rest) = true := by
  intro rest
  refine ⟨by decide, by decide, by decide, ?_⟩
  show (process_sse (process_sse (MCPClient_mk "http://localhost:3005")
      ["event: endpoint", "data: /msg?sessionId=abc123"]) rest).endpoint_received = true
  exact process_sse_endpoint_received_mono rest _ (by decide)

/-- C4, counterexample: in `test-sse.py` the request id is
`str(int(time.time()))`, so two different requests issued at the same
whole second (here methods `get-methods` and `list-tables` at second
1000) are assigned the same id `"1000"` — ids are neither strictly
increasing nor unique per request. -/
theorem c4_counterexample :
    ((tsse_send_request (J := Nat) (some "abc") "get-methods" "{}" 1000
        (PostOutcome.exn "server down")).2.map (fun e => e.2.id)) = ["1000"]
    ∧ ((tsse_send_request (J := Nat) (some "abc") "list-tables" "{}" 1000
        (PostOutcome.exn "server down")).2.map (fun e => e.2.id)) = ["1000"]
    ∧ ((tsse_send_request (J := Nat) (some "abc") "get-methods" "{}" 1000
        (PostOutcome.exn "server down")).2.map (fun e => e.2.method)) = ["get-methods"]
    ∧ ((tsse_send_request (J := Nat) (some "abc") "list-tables" "{}" 1000
        (PostOutcome.exn "server down")).2.map (fun e => e.2.method)) = ["list-tables"] := by
  decide

/-- C4 (amended): the legacy `McpFirebirdSseClient` does allocate ids from
a monotonic counter — over any call sequence on a connected client the
wire ids render consecutive, strictly increasing counter values and are
pairwise distinct — but the `test-sse.py` variant takes the current whole
second as the id, which does not depend on the method called, so calls in
the same second share an id. -/
theorem c4_monotonic_counter_ids :
    ∀ (J : Type) (c : McpFirebirdSseClient)
      (calls : List (String × String × PostOutcome J)),
      c.connected = true →
      ((run_calls c calls).1.map RpcRequest.id
          = (List.range calls.length).map (fun k => Nat.repr (c.request_id + k)))
      ∧ ((run_calls c calls).1.map RpcRequest.id).Nodup
      ∧ (∀ i j : Nat, i < j → c.request_id + i < c.request_id + j)
      ∧ (∀ (m₁ m₂ p : String) (t : Nat) (post : PostOutcome J) (sid : String),
          (tsse_send_request (some sid) m₁ p t post).2.map (fun e => e.2.id)
            = (tsse_send_request (some sid) m₂ p t post).2.map (fun e => e.2.id)) := by
  intro J c calls h
  refine ⟨run_calls_ids calls c h, ?_, fun i j hij => by omega, ?_⟩
  · rw [run_calls_ids calls c h]
    refine List.Nodup.map ?_ (List.nodup_range _)
    intro a b hab
    have := Nat_repr_injective hab
    omega
  · intro m₁ m₂ p t post sid
    cases post with
    | exn msg => rfl
    | ok r =>
      simp only [tsse_send_request]
      by_cases hs : r.status = 200
      · cases hb : r.jsonBody <;> simp [hs, hb]
      · simp [hs]

/-- C4, witness for the amended theorem: two calls on a fresh connected
legacy client produce ids `"1"` and `"2"`, distinct and increasing, while
the time-based variant gives equal id lists for different methods. -/
theorem c4_witness :
    ((run_calls (J := Nat)
        { server_url := "http://localhost:3003", session_id := "python-client-ab12cd34ef",
          request_id := 1, connected := true }
        [("get-methods", "{}", PostOutcome.exn "down"),
         ("list-tables", "{}", PostOutcome.exn "down")]).1.map RpcRequest.id
      = (List.range 2).map (fun k => Nat.repr (1 + k)))
    ∧ ((run_calls (J := Nat)
        { server_url := "http://localhost:3003", session_id := "python-client-ab12cd34ef",
          request_id := 1, connected := true }
        [("get-methods", "{}", PostOutcome.exn "down"),
         ("list-tables", "{}", PostOutcome.exn "down")]).1.map RpcRequest.id).Nodup :=
  ⟨(c4_monotonic_counter_ids Nat
      { server_url := "http://localhost:3003", session_id := "python-client-ab12cd34ef",
        request_id := 1, connected := true }
      [("get-methods", "{}", PostOutcome.exn "down"),
       ("list-tables", "{}", PostOutcome.exn "down")] rfl).1,
   (c4_monotonic_counter_ids Nat
      { server_url := "http://localhost:3003", session_id := "python-client-ab12cd34ef",
        request_id := 1, connected := true }
      [("get-methods", "{}", PostOutcome.exn "down"),
       ("list-tables", "{}", PostOutcome.exn "down")] rfl).2.1⟩

/-- C5: a call issued while the session is not ready — `connected` false
(initial state, or after `close()`), or an unpopulated endpoint or
session id — returns the failure value and performs no POST at all; the
legacy client likewise raises before any POST when not connected. -/
theorem c5_not_ready_no_post :
    (∀ (J : Type) (s : MCPState) (m p : String) (now : Nat) (post : PostOutcome J),
        s.connected = false ∨ pyTruthyOpt s.message_endpoint = false
          ∨ pyTruthyOpt s.session_id = false →
        MCPClient_send_request s m p now post = (none, []))
    ∧ (∀ (J : Type) (c : McpFirebirdSseClient) (m p : String) (post : PostOutcome J),
        c.connected = false →
        execute_method c m p post = (Except.error "No hay conexión SSE activa", c, []))
    ∧ (∀ s : MCPState, (MCPClient_close s).connected = false) := by
  refine ⟨?_, ?_, fun s => rfl⟩
  · intro J s m p now post h
    rcases h with h | h | h <;> simp [MCPClient_send_request, h]
  · intro J c m p post h
    simp [execute_method, h]

/-- C5, witness: the fresh client (never resolved) and a disconnected
legacy client both fail without a POST. -/
theorem c5_witness :
    MCPClient_send_request (J := Nat) (MCPClient_mk "http://localhost:3005")
        "get-methods" "{}" 1000 (PostOutcome.exn "unused") = (none, [])
    ∧ execute_method (J := Nat)
        { server_url := "http://localhost:3003", session_id := "python-client-ab12cd34ef",
          request_id := 1, connected := false } "get-methods" "{}" (PostOutcome.exn "unused")
      = (Except.error "No hay conexión SSE activa",
         { server_url := "http://localhost:3003", session_id := "python-client-ab12cd34ef",
           request_id := 1, connected := false }, []) :=
  ⟨c5_not_ready_no_post.1 Nat (MCPClient_mk "http://localhost:3005") "get-methods" "{}" 1000
      (PostOutcome.exn "unused") (Or.inl rfl),
   c5_not_ready_no_post.2.1 Nat
      { server_url := "http://localhost:3003", session_id := "python-client-ab12cd34ef",
        request_id := 1, connected := false } "get-methods" "{}" (PostOutcome.exn "unused") rfl⟩

/-- A resolved `MCPClient` state, as produced by a successful endpoint
handshake; used for concrete evaluations of `send_request`. -/
def readyState : MCPState :=
  { server_url := "http://localhost:3005", session_id := some "abc",
    message_endpoint := some "/msg?sessionId=abc", connected := true,
    current_event := none, event_data := "", endpoint_received := true }

/-- C6, counterexample: on a 200 response whose body fails JSON decoding,
`send_request` returns exactly the same outcome as on a raised POST
(timeout/transport error) — `None`, with no raw text carried — so the two
failure kinds are not distinguishable by the caller. -/
theorem c6_counterexample :
    MCPClient_send_request (J := Nat) readyState "get-methods" "{}" 1000
        (PostOutcome.ok { status := 200, text := "not json", jsonBody := none })
      = MCPClient_send_request (J := Nat) readyState "get-methods" "{}" 1000
        (PostOutcome.exn "timed out")
    ∧ (MCPClient_send_request (J := Nat) readyState "get-methods" "{}" 1000
        (PostOutcome.ok { status := 200, text := "not json", jsonBody := none })).1
      = none := by
  exact ⟨rfl, rfl⟩

/-- C6 (amended): on a 200 response with an undecodable body the call
returns `None`; the raw text is only printed, not preserved in the
outcome, and the outcome — return value and POST trace alike — is
identical to that of a raised/timed-out POST, so the caller cannot tell
the two apart. -/
theorem c6_malformed_json_indistinguishable :
    ∀ (J : Type) (s : MCPState) (m p : String) (now : Nat) (text msg : String),
      s.connected = true → pyTruthyOpt s.message_endpoint = true →
      pyTruthyOpt s.session_id = true →
      (MCPClient_send_request (J := J) s m p now
          (PostOutcome.ok { status := 200, text := text, jsonBody := none })).1 = none
      ∧ MCPClient_send_request (J := J) s m p now
          (PostOutcome.ok { status := 200, text := text, jsonBody := none })
        = MCPClient_send_request (J := J) s m p now (PostOutcome.exn msg) := by
  intro J s m p now text msg h1 h2 h3
  constructor <;> simp [MCPClient_send_request, h1, h2, h3]

/-- C6, witness for the amended theorem at the resolved state. -/
theorem c6_witness :
    (MCPClient_send_request (J := Nat) readyState "list-tables" "{}" 1000
        (PostOutcome.ok { status := 200, text := "oops", jsonBody := none })).1 = none
    ∧ MCPClient_send_request (J := Nat) readyState "list-tables" "{}" 1000
        (PostOutcome.ok { status := 200, text := "oops", jsonBody := none })
      = MCPClient_send_request (J := Nat) readyState "list-tables" "{}" 1000
        (PostOutcome.exn "connection reset") :=
  c6_malformed_json_indistinguishable Nat readyState "list-tables" "{}" 1000 "oops"
    "connection reset" (by decide) (by decide) (by decide)

/-- C7: for every completed frame, `_process_events` hands each registered
message handler the frame data decoded as JSON when `json.loads`
succeeds and the raw string otherwise; exactly one delivery per frame, so
nothing is dropped on parse failure, and `_trigger_event` reaches every
registered handler. -/
theorem c7_handler_json_or_raw :
    ∀ (J : Type) (parse : String → Option J) (events : List String),
      legacy_process_events parse events = events.map (legacy_process_event parse)
      ∧ (legacy_process_events parse events).length = events.length
      ∧ (∀ d : String, parse d = none → legacy_process_event parse d = HandlerArg.raw d)
      ∧ (∀ (d : String) (v : J), parse d = some v →
          legacy_process_event parse d = HandlerArg.json v)
      ∧ (∀ (α : Type) (handlers : List (HandlerArg J → α)) (arg : HandlerArg J),
          (trigger_event handlers arg).length = handlers.length) := by
  intro J parse events
  refine ⟨?_, ?_, ?_, ?_, ?_⟩
  · induction events with
    | nil => rfl
    | cons d rest ih => simp [legacy_process_events, ih]
  · induction events with
    | nil => rfl
    | cons d rest ih => simp [legacy_process_events, ih]
  · intro d h; simp [legacy_process_event, h]
  · intro d v h; simp [legacy_process_event, h]
  · intro α handlers arg; simp [trigger_event]

/-- C7, witness: with a parse function accepting only `"1"`, the handler
receives the raw string for `"x"` and the decoded value for `"1"`. -/
theorem c7_witness :
    legacy_process_event (fun s => if s = "1" then some (1 : Nat) else none) "x"
      = HandlerArg.raw "x"
    ∧ legacy_process_event (fun s => if s = "1" then some (1 : Nat) else none) "1"
      = HandlerArg.json 1 :=
  ⟨(c7_handler_json_or_raw Nat (fun s => if s = "1" then some 1 else none) []).2.2.1
      "x" (by decide),
   (c7_handler_json_or_raw Nat (fun s => if s = "1" then some 1 else none) []).2.2.2.1
      "1" 1 (by decide)⟩

/-- C8, counterexample: after a resolving endpoint frame followed by a
second endpoint frame whose data `/other` has no `?sessionId=`,
`connected` is true but `session_id = "abc"` is not the substring of
`message_endpoint = "/other"` following `?sessionId=` — the marker does
not even occur in it — so the consistency invariant fails. -/
theorem c8_counterexample :
    (process_sse (MCPClient_mk "http://localhost:3005")
        ["event: endpoint", "data: /msg?sessionId=abc", "event: endpoint",
         "data: /other"]).connected = true
    ∧ (process_sse (MCPClient_mk "http://localhost:3005")
        ["event: endpoint", "data: /msg?sessionId=abc", "event: endpoint",
         "data: /other"]).session_id = some "abc"
    ∧ (process_sse (MCPClient_mk "http://localhost:3005")
        ["event: endpoint", "data: /msg?sessionId=abc", "event: endpoint",
         "data: /other"]).message_endpoint = some "/other"
    ∧ pyContains "/other" "?sessionId=" = false
    ∧ pySplitGet1 "/other" "?sessionId=" ≠ "abc" := by
  decide

/-- C8 (amended): whenever `connected` is true, `session_id` and
`message_endpoint` are both populated, and at the step where `connected`
first becomes true they come consistently from the same endpoint frame
(`session_id` is the `?sessionId=` split of the stored data); but a later
endpoint frame can overwrite `message_endpoint` without refreshing
`session_id`, so consistency is not an invariant. -/
theorem c8_nonnull_and_fresh_consistency :
    (∀ (u : String) (lines : List String),
        (process_sse (MCPClient_mk u) lines).connected = true →
        (process_sse (MCPClient_mk u) lines).session_id.isSome = true
          ∧ (process_sse (MCPClient_mk u) lines).message_endpoint.isSome = true)
    ∧ (∀ (s : MCPState) (l : String), s.connected = false →
        (process_sse_line s l).connected = true →
        ∃ d : String, (process_sse_line s l).message_endpoint = some d
          ∧ (process_sse_line s l).session_id = some (pySplitGet1 d "?sessionId=")
          ∧ pyContains d "?sessionId=" = true) := by
  constructor
  · intro u lines h
    refine process_sse_inv lines (MCPClient_mk u) ?_ h
    intro hc
    simp [MCPClient_mk] at hc
  · intro s l h0 h1
    unfold process_sse_line at h1 ⊢
    repeat' split at h1
    all_goals (try (by_cases hc : pyContains (pyStrip (pyDrop l 5)) "?sessionId=" = true))
    all_goals simp_all

/-- C8, witness for the amended theorem: a first resolving step from a
not-yet-connected state stores a consistent pair. -/
theorem c8_witness :
    ∃ d : String,
      (process_sse_line (process_sse (MCPClient_mk "http://localhost:3005")
          ["event: endpoint"]) "data: /m?sessionId=z").message_endpoint = some d
      ∧ (process_sse_line (process_sse (MCPClient_mk "http://localhost:3005")
          ["event: endpoint"]) "data: /m?sessionId=z").session_id
          = some (pySplitGet1 d "?sessionId=")
      ∧ pyContains d "?sessionId=" = true :=
  c8_nonnull_and_fresh_consistency.2
    (process_sse (MCPClient_mk "http://localhost:3005") ["event: endpoint"])
    "data: /m?sessionId=z" (by decide) (by decide)

/-- C9: the legacy client's session id is fixed at construction to
`python-client-` followed by the ten drawn lowercase-or-digit characters;
`connect`, `disconnect` and the event loop never change it, and every
POST of `execute_method` is addressed with this locally invented id. -/
theorem c9_local_session_id :
    ∀ (url : String) (rand : List Char),
      rand.length = 10 →
      (∀ ch ∈ rand, ch ∈ (ascii_lowercase ++ string_digits).data) →
      ((McpFirebirdSseClient_mk url rand).session_id
          = "python-client-" ++ String.mk rand
        ∧ pyStartsWith (McpFirebirdSseClient_mk url rand).session_id "python-client-" = true
        ∧ (McpFirebirdSseClient_mk url rand).session_id.data.length = 24
        ∧ (∀ ch ∈ (pyDrop (McpFirebirdSseClient_mk url rand).session_id 14).data,
            ch ∈ (ascii_lowercase ++ string_digits).data))
      ∧ (∀ c : McpFirebirdSseClient,
          (legacy_connect c).session_id = c.session_id
          ∧ (legacy_disconnect c).session_id = c.session_id
          ∧ (∀ b : Bool, (legacy_process_events_client c b).session_id = c.session_id)
          ∧ (∀ (J : Type) (m p : String) (post : PostOutcome J),
              (execute_method c m p post).2.1.session_id = c.session_id
              ∧ (c.connected = true →
                  (execute_method c m p post).2.2.map Prod.fst
                    = [c.server_url ++ "/message?sessionId=" ++ c.session_id]))) := by
  intro url rand hlen hmem
  constructor
  · refine ⟨rfl, pyStartsWith_append _ _, ?_, ?_⟩
    · show ("python-client-" ++ String.mk rand).data.length = 24
      rw [String.data_append, List.length_append, hlen]
      decide
    · intro ch hch
      have hdrop : (pyDrop (McpFirebirdSseClient_mk url rand).session_id 14).data = rand := by
        show ("python-client-" ++ String.mk rand).data.drop 14 = rand
        rw [String.data_append]
        have h14 : ("python-client-".data).length = 14 := by decide
        rw [← h14, List.drop_left]
      rw [hdrop] at hch
      exact hmem ch hch
  · intro c
    refine ⟨rfl, rfl, fun b => ?_, ?_⟩
    · cases b <;> rfl
    · intro J m p post
      constructor
      · by_cases hcon : c.connected = true
        · rw [(execute_method_effects c m p post hcon).1]
        · have hf : c.connected = false := by
            revert hcon; cases c.connected <;> simp
          simp [execute_method, hf]
      · intro hcon
        rw [(execute_method_effects c m p post hcon).2]
        rfl

/-- C9, witness at a concrete draw of ten characters. -/
theorem c9_witness :
    (McpFirebirdSseClient_mk "http://localhost:3003" "ab12cd34ef".toList).session_id
      = "python-client-" ++ String.mk "ab12cd34ef".toList :=
  (c9_local_session_id "http://localhost:3003" "ab12cd34ef".toList
    (by decide) (by decide)).1.1

/-- C10: `send_request` returns the same `None` in every failure case —
guard failure (no established session), raised POST, HTTP status other
than 200, and undecodable JSON body — so the return value alone cannot
tell these causes apart. -/
theorem c10_all_failures_return_none :
    ∀ (J : Type) (s : MCPState) (m p : String) (now : Nat),
      ((s.connected = false ∨ pyTruthyOpt s.message_endpoint = false
          ∨ pyTruthyOpt s.session_id = false) →
        ∀ post : PostOutcome J, (MCPClient_send_request s m p now post).1 = none)
      ∧ (∀ msg : String, (MCPClient_send_request (J := J) s m p now
          (PostOutcome.exn msg)).1 = none)
      ∧ (∀ r : HttpResponse J, r.status ≠ 200 →
          (MCPClient_send_request s m p now (PostOutcome.ok r)).1 = none)
      ∧ (∀ r : HttpResponse J, r.jsonBody = none →
          (MCPClient_send_request s m p now (PostOutcome.ok r)).1 = none) := by
  intro J s m p now
  refine ⟨?_, ?_, ?_, ?_⟩
  · intro h post
    rcases h with h | h | h <;> simp [MCPClient_send_request, h]
  · intro msg
    unfold MCPClient_send_request
    split
    · rfl
    · rfl
  · intro r hr
    unfold MCPClient_send_request
    split
    · rfl
    · simp [hr]
  · intro r hr
    unfold MCPClient_send_request
    split
    · rfl
    · by_cases hs : r.status = 200 <;> simp [hs, hr]

/-- C10, witness: all four failure cases evaluated at concrete inputs
return `None`. -/
theorem c10_witness :
    (MCPClient_send_request (J := Nat) (MCPClient_mk "http://localhost:3005") "m" "{}" 5
        (PostOutcome.exn "e")).1 = none
    ∧ (MCPClient_send_request (J := Nat) readyState "m" "{}" 5 (PostOutcome.exn "e")).1 = none
    ∧ (MCPClient_send_request (J := Nat) readyState "m" "{}" 5
        (PostOutcome.ok { status := 500, text := "err", jsonBody := none })).1 = none
    ∧ (MCPClient_send_request (J := Nat) readyState "m" "{}" 5
        (PostOutcome.ok { status := 200, text := "bad", jsonBody := none })).1 = none :=
  ⟨(c10_all_failures_return_none Nat (MCPClient_mk "http://localhost:3005") "m" "{}" 5).1
      (Or.inl rfl) (PostOutcome.exn "e"),
   (c10_all_failures_return_none Nat readyState "m" "{}" 5).2.1 "e",
   (c10_all_failures_return_none Nat readyState "m" "{}" 5).2.2.1
      { status := 500, text := "err", jsonBody := none } (by decide),
   (c10_all_failures_return_none Nat readyState "m" "{}" 5).2.2.2
      { status := 200, text := "bad", jsonBody := none } rfl⟩

/-- C3, witness: the readiness wait still succeeds after a further
keep-alive line. -/
theorem c3_witness :
    endpoint_received_wait (process_sse (process_sse (MCPClient_mk "http://localhost:3005")
        ["event: endpoint", "data: /msg?sessionId=abc123"]) ["event: ping"]) = true :=
  (c3_endpoint_resolution ["event: ping"]).2.2.2
